import Mathlib

/-!
Verification development for the webcam eye tracker
(`src/webcamEyeTracker/src/eye_tracker.py` and
`src/webcamEyeTracker/src/calibration.py`).

Python floats are modelled by exact arithmetic: the pure per-frame gaze
functions (`calculate_gaze_ratio`, `apply_calibration`,
`estimate_screen_position`) are embedded over `ℚ` (generic over a
`LinearOrderedField` where convenient) so that concrete instances are
decidable, and the calibration fit (`calculate_calibration_transform`),
which takes a square root through `np.std`, is embedded over `ℝ` with
`Real.sqrt`.
-/

/-- np.clip(x, 0.0, 1.0): values below 0 become 0, values above 1 become 1. -/
def clip01 {α : Type*} [LinearOrder α] [Zero α] [One α] (x : α) : α :=
  min (max x 0) 1

/-- The calibration dictionary built by `calculate_calibration_transform` and
consumed by `EyeTracker.apply_calibration`: keys `h_offset`, `v_offset`,
`h_scale`, `v_scale` (floats) and `num_points` (integer).  The `timestamp`
key (wall-clock `time.time()`, never read back by the tracker logic) is not
modelled. -/
structure CalibrationParameters (α : Type*) where
  h_offset : α
  v_offset : α
  h_scale : α
  v_scale : α
  num_points : ℕ
  deriving DecidableEq

/-- EyeTracker.apply_calibration (eye_tracker.py lines 158-181).
`self.calibration_data` is `none` when no calibration is loaded (Python
`None`, or an empty dict, both falsy), in which case the raw ratios are
returned unchanged; otherwise the affine transform is applied and each
component is clipped to [0,1]. -/
def apply_calibration {α : Type*} [LinearOrderedField α]
    (calibration_data : Option (CalibrationParameters α)) (h_ratio v_ratio : α) :
    α × α :=
  match calibration_data with
  | none => (h_ratio, v_ratio)
  | some cd =>
      (clip01 ((h_ratio - cd.h_offset) * cd.h_scale),
       clip01 ((v_ratio - cd.v_offset) * cd.v_scale))

/-- np.min(eye_coords, axis=0): componentwise minimum of the eye boundary
points.  numpy raises on an empty array; the tracker always passes the 8
landmark points of one eye, so the empty case (given value (0,0) here to
keep the function total) never occurs and every theorem below that needs a
box works from hypotheses that force the list to be nonempty. -/
def eye_min (eye_coords : List (ℚ × ℚ)) : ℚ × ℚ :=
  match eye_coords with
  | [] => (0, 0)
  | p :: ps => (ps.foldl (fun a q => min a q.1) p.1, ps.foldl (fun a q => min a q.2) p.2)

/-- np.max(eye_coords, axis=0): componentwise maximum of the eye boundary
points (same conventions as `eye_min`). -/
def eye_max (eye_coords : List (ℚ × ℚ)) : ℚ × ℚ :=
  match eye_coords with
  | [] => (0, 0)
  | p :: ps => (ps.foldl (fun a q => max a q.1) p.1, ps.foldl (fun a q => max a q.2) p.2)

/-- EyeTracker.calculate_gaze_ratio (eye_tracker.py lines 96-125): bounding
box of the eye boundary points; if either box dimension is zero return
(0.5, 0.5); otherwise the iris position relative to the box, clipped to
[0,1] per axis. -/
def calculate_gaze_ratio (iris_center : ℚ × ℚ) (eye_coords : List (ℚ × ℚ)) : ℚ × ℚ :=
  let emin := eye_min eye_coords
  let emax := eye_max eye_coords
  let eye_width := emax.1 - emin.1
  let eye_height := emax.2 - emin.2
  if eye_width = 0 ∨ eye_height = 0 then (1/2, 1/2)
  else
    (clip01 ((iris_center.1 - emin.1) / eye_width),
     clip01 ((iris_center.2 - emin.2) / eye_height))

/-- Python int() applied to a float: truncation toward zero. -/
def pyInt (q : ℚ) : ℤ := if 0 ≤ q then ⌊q⌋ else ⌈q⌉

/-- The per-axis average of the two eyes' gaze ratios computed at the top of
EyeTracker.estimate_screen_position (eye_tracker.py lines 143-145). -/
def average_gaze_pair (left_gaze right_gaze : ℚ × ℚ) : ℚ × ℚ :=
  ((left_gaze.1 + right_gaze.1) / 2, (left_gaze.2 + right_gaze.2) / 2)

/-- The gaze ratio pair actually mapped to the screen by
`estimate_screen_position`: the two-eye average, passed through
`apply_calibration` when calibration data is present (eye_tracker.py lines
147-149). -/
def effective_gaze (calibration_data : Option (CalibrationParameters ℚ))
    (left_gaze right_gaze : ℚ × ℚ) : ℚ × ℚ :=
  let avg := average_gaze_pair left_gaze right_gaze
  match calibration_data with
  | none => avg
  | some _ => apply_calibration calibration_data avg.1 avg.2

/-- EyeTracker.estimate_screen_position (eye_tracker.py lines 127-156):
screen_x = int((1 - avg_h) * screen_width) (horizontal axis inverted),
screen_y = int(avg_v * screen_height). -/
def estimate_screen_position (calibration_data : Option (CalibrationParameters ℚ))
    (left_gaze right_gaze : ℚ × ℚ) (screen_width screen_height : ℕ) : ℤ × ℤ :=
  let g := effective_gaze calibration_data left_gaze right_gaze
  (pyInt ((1 - g.1) * screen_width), pyInt (g.2 * screen_height))

/-- A calibration target (calibration.py lines 10-24): an on-screen position
given as a pair of ratios, together with the recorded gaze-ratio samples. -/
structure CalibrationPoint where
  screen_pos : ℝ × ℝ
  gaze_samples : List (ℝ × ℝ)

/-- np.mean of a one-dimensional array: sum divided by length.  numpy
returns NaN on an empty array; here the Lean convention `x / 0 = 0` applies
instead, and no theorem below depends on the empty case. -/
noncomputable def npMean (l : List ℝ) : ℝ := l.sum / l.length

/-- np.std of a one-dimensional array (population standard deviation,
ddof = 0): the square root of the mean squared deviation from the mean. -/
noncomputable def npStd (l : List ℝ) : ℝ :=
  Real.sqrt (npMean (l.map fun x => (x - npMean l) ^ 2))

/-- CalibrationPoint.get_average_gaze (calibration.py lines 26-32): the
componentwise mean of the recorded samples, or (0.5, 0.5) when no samples
were recorded. -/
noncomputable def get_average_gaze (p : CalibrationPoint) : ℝ × ℝ :=
  if p.gaze_samples = [] then (1/2, 1/2)
  else (npMean (p.gaze_samples.map Prod.fst), npMean (p.gaze_samples.map Prod.snd))

/-- Column 0 of the `gaze_positions` array built in
`calculate_calibration_transform` (calibration.py lines 230-236): the
horizontal components of the per-point averaged gaze ratios. -/
noncomputable def gaze_ratios_h (pts : List CalibrationPoint) : List ℝ :=
  (pts.map get_average_gaze).map Prod.fst

/-- Column 1 of the `gaze_positions` array: vertical components of the
per-point averaged gaze ratios. -/
noncomputable def gaze_ratios_v (pts : List CalibrationPoint) : List ℝ :=
  (pts.map get_average_gaze).map Prod.snd

/-- Column 0 of the `screen_positions` array: horizontal target positions. -/
def target_positions_h (pts : List CalibrationPoint) : List ℝ :=
  (pts.map CalibrationPoint.screen_pos).map Prod.fst

/-- Column 1 of the `screen_positions` array: vertical target positions. -/
def target_positions_v (pts : List CalibrationPoint) : List ℝ :=
  (pts.map CalibrationPoint.screen_pos).map Prod.snd

/-- calculate_calibration_transform (calibration.py lines 216-270):
offset = mean of averaged gaze ratios minus mean of target positions per
axis; scale = std of target positions over std of averaged gaze ratios per
axis when the gaze std is positive, else 1.0.  (np.mean with axis=0 is the
columnwise mean, i.e. the mean of each component list.) -/
noncomputable def calculate_calibration_transform (pts : List CalibrationPoint) :
    CalibrationParameters ℝ where
  h_offset := npMean (gaze_ratios_h pts) - npMean (target_positions_h pts)
  v_offset := npMean (gaze_ratios_v pts) - npMean (target_positions_v pts)
  h_scale :=
    if npStd (gaze_ratios_h pts) > 0
    then npStd (target_positions_h pts) / npStd (gaze_ratios_h pts) else 1
  v_scale :=
    if npStd (gaze_ratios_v pts) > 0
    then npStd (target_positions_v pts) / npStd (gaze_ratios_v pts) else 1
  num_points := pts.length

/-- The literal reading of claim C1's scale formula on the horizontal axis:
the standard deviation of the target positions divided by the standard
deviation of the averaged gaze ratios, with no guard for a zero
denominator. -/
noncomputable def claimed_h_scale (pts : List CalibrationPoint) : ℝ :=
  npStd (target_positions_h pts) / npStd (gaze_ratios_h pts)

/-- The literal reading of claim C1's scale formula on the vertical axis. -/
noncomputable def claimed_v_scale (pts : List CalibrationPoint) : ℝ :=
  npStd (target_positions_v pts) / npStd (gaze_ratios_v pts)

/-- Claim C1's offset formula on the horizontal axis: mean of the per-point
averaged gaze ratios minus mean of the target positions. -/
noncomputable def claimed_h_offset (pts : List CalibrationPoint) : ℝ :=
  npMean (gaze_ratios_h pts) - npMean (target_positions_h pts)

/-- Claim C1's offset formula on the vertical axis. -/
noncomputable def claimed_v_offset (pts : List CalibrationPoint) : ℝ :=
  npMean (gaze_ratios_v pts) - npMean (target_positions_v pts)

/-- The mutable state of an EyeTracker relevant to calibration persistence:
`calibration_data` is the in-memory calibration (`self.calibration_data`,
`None` when uncalibrated), and `calibration_file` models the contents of the
JSON file at `self.calibration_file` — `some d` for a file that parses to
the dictionary `d`, `none` for a file that is missing or unreadable (the
external json library's float encoding round-trips finite doubles exactly,
so a successfully written file is modelled as holding the dictionary
itself). -/
structure EyeTrackerState where
  calibration_data : Option (CalibrationParameters ℝ)
  calibration_file : Option (CalibrationParameters ℝ)

/-- EyeTracker.save_calibration (eye_tracker.py lines 253-262).  `writeOk`
models whether the body of the `try` (open the file for writing plus
json.dump) succeeds.  On success the file holds the dictionary and
`self.calibration_data` is assigned; on failure the exception is caught and
logged, the assignment to `self.calibration_data` — which sits after the
write inside the `try` — never executes, and the on-disk contents are left
unspecified (modelled as `none`; no theorem below reads the file on the
failure path). -/
def save_calibration (st : EyeTrackerState) (calibration_data : CalibrationParameters ℝ)
    (writeOk : Bool) : EyeTrackerState :=
  if writeOk then
    { calibration_data := some calibration_data, calibration_file := some calibration_data }
  else
    { calibration_data := st.calibration_data, calibration_file := none }

/-- EyeTracker.load_calibration (eye_tracker.py lines 241-251): if the
calibration file exists and parses, the parsed dictionary becomes
`self.calibration_data` and True is returned; a missing or unreadable file
(both folded into `calibration_file = none` here) leaves the state
unchanged and returns False. -/
def load_calibration (st : EyeTrackerState) : EyeTrackerState × Bool :=
  match st.calibration_file with
  | some d => ({ st with calibration_data := some d }, true)
  | none => (st, false)

section Clip01Lemmas

variable {α : Type*} [LinearOrderedField α]

lemma clip01_nonneg (x : α) : 0 ≤ clip01 x :=
  le_min (le_max_right x 0) zero_le_one

lemma clip01_le_one (x : α) : clip01 x ≤ 1 :=
  min_le_right _ _

lemma clip01_eq_self {x : α} (h0 : 0 ≤ x) (h1 : x ≤ 1) : clip01 x = x := by
  rw [clip01, max_eq_left h0, min_eq_left h1]

lemma clip01_lipschitz (a b : α) : |clip01 a - clip01 b| ≤ |a - b| := by
  have h1 : |clip01 a - clip01 b| ≤ max |max a 0 - max b 0| |(1 : α) - 1| :=
    abs_min_sub_min_le_max _ _ _ _
  have h2 : |max a 0 - max b 0| ≤ |a - b| := abs_max_sub_max_le_abs _ _ _
  have h3 : |(1 : α) - 1| = 0 := by simp
  calc |clip01 a - clip01 b| ≤ max |max a 0 - max b 0| |(1 : α) - 1| := h1
    _ = |max a 0 - max b 0| := by rw [h3]; exact max_eq_left (abs_nonneg _)
    _ ≤ |a - b| := h2

end Clip01Lemmas

/-- C3: for every raw gaze ratio pair and every loaded CalibrationParameters,
apply_calibration returns ((h − h_offset) × h_scale, (v − v_offset) × v_scale)
with each component clamped to [0,1]. -/
theorem C3_apply_calibration_formula (cd : CalibrationParameters ℚ) (h_ratio v_ratio : ℚ) :
    apply_calibration (some cd) h_ratio v_ratio =
      (min (max ((h_ratio - cd.h_offset) * cd.h_scale) 0) 1,
       min (max ((v_ratio - cd.v_offset) * cd.v_scale) 0) 1) ∧
    0 ≤ (apply_calibration (some cd) h_ratio v_ratio).1 ∧
    (apply_calibration (some cd) h_ratio v_ratio).1 ≤ 1 ∧
    0 ≤ (apply_calibration (some cd) h_ratio v_ratio).2 ∧
    (apply_calibration (some cd) h_ratio v_ratio).2 ≤ 1 :=
  ⟨rfl, clip01_nonneg _, clip01_le_one _, clip01_nonneg _, clip01_le_one _⟩

/-- C9: for every eye-boundary point set whose bounding box has zero width or
zero height, and every iris center, calculate_gaze_ratio returns exactly
(0.5, 0.5) (taking the early-return branch, so no division is performed). -/
theorem C9_degenerate_box_centered (iris_center : ℚ × ℚ) (eye_coords : List (ℚ × ℚ))
    (hdeg : (eye_max eye_coords).1 - (eye_min eye_coords).1 = 0 ∨
            (eye_max eye_coords).2 - (eye_min eye_coords).2 = 0) :
    calculate_gaze_ratio iris_center eye_coords = (1/2, 1/2) := by
  rcases hdeg with h | h <;> simp [calculate_gaze_ratio, h]

/-- Witness for C9: a vertical segment of boundary points has a zero-width
box, and an arbitrary iris center maps to (0.5, 0.5). -/
theorem C9_degenerate_box_centered_witness :
    calculate_gaze_ratio (3, 4) [(1, 1), (1, 5)] = (1/2, 1/2) :=
  C9_degenerate_box_centered (3, 4) [(1, 1), (1, 5)]
    (Or.inl (by norm_num [eye_max, eye_min]))

/-- C2: for every eye-boundary point set whose bounding box has nonzero width
and height, and every iris center inside the box, calculate_gaze_ratio
returns exactly ((iris_x − box_min_x) / width, (iris_y − box_min_y) / height),
each component lies in [0,1], and the exact center of the box maps to
(0.5, 0.5). -/
theorem C2_gaze_ratio_in_box (iris_center : ℚ × ℚ) (eye_coords : List (ℚ × ℚ))
    (hw : (eye_max eye_coords).1 - (eye_min eye_coords).1 ≠ 0)
    (hh : (eye_max eye_coords).2 - (eye_min eye_coords).2 ≠ 0)
    (hx1 : (eye_min eye_coords).1 ≤ iris_center.1)
    (hx2 : iris_center.1 ≤ (eye_max eye_coords).1)
    (hy1 : (eye_min eye_coords).2 ≤ iris_center.2)
    (hy2 : iris_center.2 ≤ (eye_max eye_coords).2) :
    calculate_gaze_ratio iris_center eye_coords =
      ((iris_center.1 - (eye_min eye_coords).1) /
         ((eye_max eye_coords).1 - (eye_min eye_coords).1),
       (iris_center.2 - (eye_min eye_coords).2) /
         ((eye_max eye_coords).2 - (eye_min eye_coords).2)) ∧
    0 ≤ (calculate_gaze_ratio iris_center eye_coords).1 ∧
    (calculate_gaze_ratio iris_center eye_coords).1 ≤ 1 ∧
    0 ≤ (calculate_gaze_ratio iris_center eye_coords).2 ∧
    (calculate_gaze_ratio iris_center eye_coords).2 ≤ 1 ∧
    (iris_center = (((eye_min eye_coords).1 + (eye_max eye_coords).1) / 2,
                    ((eye_min eye_coords).2 + (eye_max eye_coords).2) / 2) →
      calculate_gaze_ratio iris_center eye_coords = (1/2, 1/2)) := by
  have hwpos : 0 < (eye_max eye_coords).1 - (eye_min eye_coords).1 :=
    lt_of_le_of_ne (by linarith) (Ne.symm hw)
  have hhpos : 0 < (eye_max eye_coords).2 - (eye_min eye_coords).2 :=
    lt_of_le_of_ne (by linarith) (Ne.symm hh)
  have hr1 : 0 ≤ (iris_center.1 - (eye_min eye_coords).1) /
      ((eye_max eye_coords).1 - (eye_min eye_coords).1) :=
    div_nonneg (by linarith) hwpos.le
  have hr2 : (iris_center.1 - (eye_min eye_coords).1) /
      ((eye_max eye_coords).1 - (eye_min eye_coords).1) ≤ 1 :=
    (div_le_one hwpos).mpr (by linarith)
  have hr3 : 0 ≤ (iris_center.2 - (eye_min eye_coords).2) /
      ((eye_max eye_coords).2 - (eye_min eye_coords).2) :=
    div_nonneg (by linarith) hhpos.le
  have hr4 : (iris_center.2 - (eye_min eye_coords).2) /
      ((eye_max eye_coords).2 - (eye_min eye_coords).2) ≤ 1 :=
    (div_le_one hhpos).mpr (by linarith)
  have heq : calculate_gaze_ratio iris_center eye_coords =
      ((iris_center.1 - (eye_min eye_coords).1) /
         ((eye_max eye_coords).1 - (eye_min eye_coords).1),
       (iris_center.2 - (eye_min eye_coords).2) /
         ((eye_max eye_coords).2 - (eye_min eye_coords).2)) := by
    simp only [calculate_gaze_ratio, hw, hh, or_self, if_false, false_or, if_neg,
      not_false_iff, or_false]
    rw [clip01_eq_self hr1 hr2, clip01_eq_self hr3 hr4]
  refine ⟨heq, ?_, ?_, ?_, ?_, ?_⟩
  · rw [heq]; exact hr1
  · rw [heq]; exact hr2
  · rw [heq]; exact hr3
  · rw [heq]; exact hr4
  · intro hc
    rw [heq, hc]
    simp only [Prod.mk.injEq]
    constructor
    · rw [div_eq_div_iff hwpos.ne' two_ne_zero]; ring
    · rw [div_eq_div_iff hhpos.ne' two_ne_zero]; ring

/-- Witness for C2: the box of the boundary points (0,0) and (2,1) has width
2 and height 1, the iris center (1/2, 1/4) lies inside it, and the computed
ratio is (1/4, 1/4). -/
theorem C2_gaze_ratio_in_box_witness :
    calculate_gaze_ratio (1/2, 1/4) [(0, 0), (2, 1)] = (1/4, 1/4) := by
  have h := C2_gaze_ratio_in_box (1/2, 1/4) [(0, 0), (2, 1)]
    (by norm_num [eye_min, eye_max]) (by norm_num [eye_min, eye_max])
    (by norm_num [eye_min]) (by norm_num [eye_max])
    (by norm_num [eye_min]) (by norm_num [eye_max])
  rw [h.1]
  norm_num [eye_min, eye_max]

/-- C4: estimate_screen_position averages the two eyes' ratios per axis,
applies calibration exactly when calibration data is present, and returns
x = int((1 − h) × screen_width) and y = int(v × screen_height) where (h, v)
is the resulting pair: horizontal inverted, vertical direct, both truncated
to integers. -/
theorem C4_estimate_screen_position_formula
    (calibration_data : Option (CalibrationParameters ℚ)) (left_gaze right_gaze : ℚ × ℚ)
    (screen_width screen_height : ℕ) :
    (calibration_data = none →
      estimate_screen_position calibration_data left_gaze right_gaze
          screen_width screen_height =
        (pyInt ((1 - (left_gaze.1 + right_gaze.1) / 2) * screen_width),
         pyInt ((left_gaze.2 + right_gaze.2) / 2 * screen_height))) ∧
    (∀ cd, calibration_data = some cd →
      estimate_screen_position calibration_data left_gaze right_gaze
          screen_width screen_height =
        (pyInt ((1 - (apply_calibration (some cd) ((left_gaze.1 + right_gaze.1) / 2)
            ((left_gaze.2 + right_gaze.2) / 2)).1) * screen_width),
         pyInt ((apply_calibration (some cd) ((left_gaze.1 + right_gaze.1) / 2)
            ((left_gaze.2 + right_gaze.2) / 2)).2 * screen_height))) := by
  constructor
  · rintro rfl
    rfl
  · rintro cd rfl
    rfl

/-- Witness for C4: with calibration (offsets 1/10 and 1/5, scales 2 and 3)
and eye ratios (1/2, 1/4) and (1/4, 3/4) on a 1920×1080 screen, the averaged
pair is (3/8, 1/2), calibration maps it to (11/20, 9/10), and the screen
position is (864, 972). -/
theorem C4_estimate_screen_position_formula_witness :
    estimate_screen_position (some ⟨1/10, 1/5, 2, 3, 5⟩) (1/2, 1/4) (1/4, 3/4)
      1920 1080 = (864, 972) := by
  rw [(C4_estimate_screen_position_formula (some ⟨1/10, 1/5, 2, 3, 5⟩) (1/2, 1/4)
    (1/4, 3/4) 1920 1080).2 ⟨1/10, 1/5, 2, 3, 5⟩ rfl]
  norm_num [apply_calibration, clip01, pyInt]

lemma pyInt_of_nonneg {q : ℚ} (h : 0 ≤ q) : pyInt q = ⌊q⌋ := if_pos h

/-- C10: when every input ratio component is in [0,1] (with or without
calibration data), estimate_screen_position stays within [0, screen_width] ×
[0, screen_height]; for positive resolutions the upper bounds are attained
exactly at effective horizontal ratio 0 and effective vertical ratio 1. -/
theorem C10_screen_position_bounds
    (calibration_data : Option (CalibrationParameters ℚ)) (left_gaze right_gaze : ℚ × ℚ)
    (screen_width screen_height : ℕ)
    (hl1 : 0 ≤ left_gaze.1) (hl2 : left_gaze.1 ≤ 1)
    (hl3 : 0 ≤ left_gaze.2) (hl4 : left_gaze.2 ≤ 1)
    (hr1 : 0 ≤ right_gaze.1) (hr2 : right_gaze.1 ≤ 1)
    (hr3 : 0 ≤ right_gaze.2) (hr4 : right_gaze.2 ≤ 1)
    (hW : 0 < screen_width) (hH : 0 < screen_height) :
    0 ≤ (estimate_screen_position calibration_data left_gaze right_gaze
          screen_width screen_height).1 ∧
    (estimate_screen_position calibration_data left_gaze right_gaze
          screen_width screen_height).1 ≤ screen_width ∧
    0 ≤ (estimate_screen_position calibration_data left_gaze right_gaze
          screen_width screen_height).2 ∧
    (estimate_screen_position calibration_data left_gaze right_gaze
          screen_width screen_height).2 ≤ screen_height ∧
    ((estimate_screen_position calibration_data left_gaze right_gaze
          screen_width screen_height).1 = screen_width ↔
      (effective_gaze calibration_data left_gaze right_gaze).1 = 0) ∧
    ((estimate_screen_position calibration_data left_gaze right_gaze
          screen_width screen_height).2 = screen_height ↔
      (effective_gaze calibration_data left_gaze right_gaze).2 = 1) := by
  have hg1 : 0 ≤ (effective_gaze calibration_data left_gaze right_gaze).1 ∧
      (effective_gaze calibration_data left_gaze right_gaze).1 ≤ 1 ∧
      0 ≤ (effective_gaze calibration_data left_gaze right_gaze).2 ∧
      (effective_gaze calibration_data left_gaze right_gaze).2 ≤ 1 := by
    cases calibration_data with
    | none =>
        simp only [effective_gaze, average_gaze_pair]
        refine ⟨by linarith, by linarith, by linarith, by linarith⟩
    | some cd =>
        exact ⟨clip01_nonneg _, clip01_le_one _, clip01_nonneg _, clip01_le_one _⟩
  obtain ⟨ha, hb, hc, hd⟩ := hg1
  set g := effective_gaze calibration_data left_gaze right_gaze with hgdef
  have hWq : (0 : ℚ) < screen_width := by exact_mod_cast hW
  have hHq : (0 : ℚ) < screen_height := by exact_mod_cast hH
  have hq1a : 0 ≤ (1 - g.1) * screen_width := mul_nonneg (by linarith) hWq.le
  have hq1b : (1 - g.1) * screen_width ≤ screen_width := by nlinarith
  have hq2a : 0 ≤ g.2 * screen_height := mul_nonneg hc hHq.le
  have hq2b : g.2 * screen_height ≤ screen_height := by nlinarith
  have hx : (estimate_screen_position calibration_data left_gaze right_gaze
      screen_width screen_height).1 = ⌊(1 - g.1) * (screen_width : ℚ)⌋ := by
    rw [estimate_screen_position]
    exact pyInt_of_nonneg hq1a
  have hy : (estimate_screen_position calibration_data left_gaze right_gaze
      screen_width screen_height).2 = ⌊g.2 * (screen_height : ℚ)⌋ := by
    rw [estimate_screen_position]
    exact pyInt_of_nonneg hq2a
  refine ⟨?_, ?_, ?_, ?_, ?_, ?_⟩
  · rw [hx]; exact Int.floor_nonneg.mpr hq1a
  · rw [hx]
    calc ⌊(1 - g.1) * (screen_width : ℚ)⌋ ≤ ⌊(screen_width : ℚ)⌋ :=
          Int.floor_le_floor hq1b
      _ = screen_width := Int.floor_natCast _
  · rw [hy]; exact Int.floor_nonneg.mpr hq2a
  · rw [hy]
    calc ⌊g.2 * (screen_height : ℚ)⌋ ≤ ⌊(screen_height : ℚ)⌋ :=
          Int.floor_le_floor hq2b
      _ = screen_height := Int.floor_natCast _
  · rw [hx]
    constructor
    · intro hfx
      have hle : (screen_width : ℚ) ≤ (1 - g.1) * screen_width :=
        Int.le_floor.mp (by rw [hfx]; exact_mod_cast le_refl _)
      nlinarith
    · intro h0
      rw [h0]
      norm_num [Int.floor_natCast]
  · rw [hy]
    constructor
    · intro hfy
      have hle : (screen_height : ℚ) ≤ g.2 * screen_height :=
        Int.le_floor.mp (by rw [hfy]; exact_mod_cast le_refl _)
      nlinarith
    · intro h1
      rw [h1]
      norm_num [Int.floor_natCast]

/-- Witness for C10: with no calibration data, both eyes at ratio (0, 1) and
a 4×3 screen, the estimated position is (4, 3), attaining both upper
bounds. -/
theorem C10_screen_position_bounds_witness :
    0 ≤ (estimate_screen_position none (0, 1) (0, 1) 4 3).1 ∧
    (estimate_screen_position none (0, 1) (0, 1) 4 3).1 ≤ 4 ∧
    0 ≤ (estimate_screen_position none (0, 1) (0, 1) 4 3).2 ∧
    (estimate_screen_position none (0, 1) (0, 1) 4 3).2 ≤ 3 ∧
    ((estimate_screen_position none (0, 1) (0, 1) 4 3).1 = 4 ↔
      (effective_gaze none (0, 1) (0, 1)).1 = 0) ∧
    ((estimate_screen_position none (0, 1) (0, 1) 4 3).2 = 3 ↔
      (effective_gaze none (0, 1) (0, 1)).2 = 1) := by
  have h := C10_screen_position_bounds none (0, 1) (0, 1) 4 3
    (by norm_num) (by norm_num) (by norm_num) (by norm_num)
    (by norm_num) (by norm_num) (by norm_num) (by norm_num)
    (by norm_num) (by norm_num)
  exact_mod_cast h

/-- A concrete calibration dictionary used in the persistence examples. -/
noncomputable def c7_dict : CalibrationParameters ℝ := ⟨1/10, 1/5, 3/2, 5/4, 9⟩

/-- An uncalibrated tracker with no calibration file on disk. -/
def c7_state : EyeTrackerState := ⟨none, none⟩

/-- Counterexample to C7: on a failed write, save_calibration does NOT update
the in-memory calibration — the assignment to self.calibration_data sits
after the write inside the try block, so the exception skips it and the
tracker keeps its previous (here absent) calibration. -/
theorem C7_counterexample :
    (save_calibration c7_state c7_dict false).calibration_data ≠ some c7_dict := by
  simp [save_calibration, c7_state]

/-- C7 as amended: when the calibration file write fails, the failure is
caught (and logged) but self.calibration_data keeps its previous value; the
in-memory state is updated only when the write succeeds. -/
theorem C7_save_failure_keeps_old_state (st : EyeTrackerState)
    (d : CalibrationParameters ℝ) :
    (save_calibration st d false).calibration_data = st.calibration_data ∧
    (save_calibration st d true).calibration_data = some d :=
  ⟨rfl, rfl⟩

/-- C8: saving a calibration dictionary and reloading it reproduces
h_offset, v_offset, h_scale and v_scale exactly (the external json library's
numeric encoding round-trips floats, modelled here by the file holding the
dictionary itself), and the reload reports success. -/
theorem C8_persistence_round_trip (st : EyeTrackerState) (d : CalibrationParameters ℝ) :
    ((load_calibration (save_calibration st d true)).1.calibration_data.map
        CalibrationParameters.h_offset = some d.h_offset) ∧
    ((load_calibration (save_calibration st d true)).1.calibration_data.map
        CalibrationParameters.v_offset = some d.v_offset) ∧
    ((load_calibration (save_calibration st d true)).1.calibration_data.map
        CalibrationParameters.h_scale = some d.h_scale) ∧
    ((load_calibration (save_calibration st d true)).1.calibration_data.map
        CalibrationParameters.v_scale = some d.v_scale) ∧
    (load_calibration (save_calibration st d true)).2 = true :=
  ⟨rfl, rfl, rfl, rfl, rfl⟩

/-- Two calibration targets on the main diagonal with no recorded samples:
both averaged gaze ratios default to (0.5, 0.5), so the gaze spread is zero
while the target spread is 0.4 per axis. -/
noncomputable def pts_c1 : List CalibrationPoint :=
  [⟨(1/10, 1/10), []⟩, ⟨(9/10, 9/10), []⟩]

/-- Counterexample to C1: on pts_c1 the code returns h_scale = 1.0 (the
zero-gaze-spread guard), while the claim's unguarded formula divides the
target spread 0.4 by the zero gaze spread (division by zero; 0 under the
Lean convention) — the claim omits the guard the code has. -/
theorem C1_counterexample :
    (calculate_calibration_transform pts_c1).h_scale ≠ claimed_h_scale pts_c1 := by
  have hg : npStd (gaze_ratios_h pts_c1) = 0 := by
    norm_num [pts_c1, gaze_ratios_h, get_average_gaze, npStd, npMean]
  have hlhs : (calculate_calibration_transform pts_c1).h_scale = 1 := by
    simp only [calculate_calibration_transform, hg]
    norm_num
  have hrhs : claimed_h_scale pts_c1 = 0 := by
    rw [claimed_h_scale, hg, div_zero]
  rw [hlhs, hrhs]
  norm_num

/-- C1 as amended: offsets are the mean of the averaged gaze ratios minus
the mean of the targets per axis; the scale is the target standard deviation
over the gaze standard deviation on each axis whose gaze standard deviation
is positive, and exactly 1.0 on an axis whose gaze standard deviation is
zero; a point with no samples contributes (0.5, 0.5). -/
theorem C1_calibration_transform_amended (pts : List CalibrationPoint) :
    (calculate_calibration_transform pts).h_offset = claimed_h_offset pts ∧
    (calculate_calibration_transform pts).v_offset = claimed_v_offset pts ∧
    (0 < npStd (gaze_ratios_h pts) →
      (calculate_calibration_transform pts).h_scale = claimed_h_scale pts) ∧
    (npStd (gaze_ratios_h pts) = 0 →
      (calculate_calibration_transform pts).h_scale = 1) ∧
    (0 < npStd (gaze_ratios_v pts) →
      (calculate_calibration_transform pts).v_scale = claimed_v_scale pts) ∧
    (npStd (gaze_ratios_v pts) = 0 →
      (calculate_calibration_transform pts).v_scale = 1) ∧
    (calculate_calibration_transform pts).num_points = pts.length := by
  refine ⟨rfl, rfl, ?_, ?_, ?_, ?_, rfl⟩
  · intro h
    simp only [calculate_calibration_transform, claimed_h_scale]
    rw [if_pos h]
  · intro h
    simp only [calculate_calibration_transform, h]
    norm_num
  · intro h
    simp only [calculate_calibration_transform, claimed_v_scale]
    rw [if_pos h]
  · intro h
    simp only [calculate_calibration_transform, h]
    norm_num

/-- Two diagonal targets, one sample each at (0.3, 0.3) and (0.7, 0.7): the
gaze spread is 0.2 per axis, so the scale formula applies with quotient 2. -/
noncomputable def pts_pos : List CalibrationPoint :=
  [⟨(1/10, 1/10), [(3/10, 3/10)]⟩, ⟨(9/10, 9/10), [(7/10, 7/10)]⟩]

/-- Witness for the amended C1: on pts_c1 (zero gaze spread) the offsets
follow the mean formula and the scale defaults to 1; on pts_pos (positive
gaze spread) the scale equals the claimed quotient of standard deviations. -/
theorem C1_calibration_transform_amended_witness :
    (calculate_calibration_transform pts_c1).h_offset = claimed_h_offset pts_c1 ∧
    (calculate_calibration_transform pts_c1).h_scale = 1 ∧
    (calculate_calibration_transform pts_pos).h_scale = claimed_h_scale pts_pos := by
  have h1 := C1_calibration_transform_amended pts_c1
  have h2 := C1_calibration_transform_amended pts_pos
  refine ⟨h1.1, h1.2.2.2.1 ?_, h2.2.2.1 ?_⟩
  · norm_num [pts_c1, gaze_ratios_h, get_average_gaze, npStd, npMean]
  · have : npStd (gaze_ratios_h pts_pos) = Real.sqrt (1/25) := by
      norm_num [pts_pos, gaze_ratios_h, get_average_gaze, npStd, npMean]
    rw [this]
    exact Real.sqrt_pos.mpr (by norm_num)

/-- Two diagonal targets whose recorded samples are all identical (both
points sampled only at the center): the per-axis gaze spread is zero. -/
noncomputable def pts_c6 : List CalibrationPoint :=
  [⟨(1/10, 1/10), [(1/2, 1/2)]⟩, ⟨(9/10, 9/10), [(1/2, 1/2)]⟩]

/-- C6: whenever the per-axis standard deviation of the averaged gaze ratios
is zero, calculate_calibration_transform takes the guard branch and returns
scale exactly 1.0 on both axes (no division by zero is performed). -/
theorem C6_zero_spread_scale_one (pts : List CalibrationPoint)
    (hh : npStd (gaze_ratios_h pts) = 0) (hv : npStd (gaze_ratios_v pts) = 0) :
    (calculate_calibration_transform pts).h_scale = 1 ∧
    (calculate_calibration_transform pts).v_scale = 1 := by
  constructor
  · simp only [calculate_calibration_transform, hh]
    norm_num
  · simp only [calculate_calibration_transform, hv]
    norm_num

/-- Witness for C6: on pts_c6 (identical samples at every point) both scales
are exactly 1. -/
theorem C6_zero_spread_scale_one_witness :
    (calculate_calibration_transform pts_c6).h_scale = 1 ∧
    (calculate_calibration_transform pts_c6).v_scale = 1 :=
  C6_zero_spread_scale_one pts_c6
    (by norm_num [pts_c6, gaze_ratios_h, get_average_gaze, npStd, npMean])
    (by norm_num [pts_c6, gaze_ratios_v, get_average_gaze, npStd, npMean])

/-- A single centered calibration target with no samples: offsets are zero
and both scales default to 1. -/
noncomputable def pts_c5 : List CalibrationPoint := [⟨(1/2, 1/2), []⟩]

/-- C5: feeding the exact centroid of the averaged gaze ratios back through
apply_calibration with the parameters fit from the same points yields the
clip of (target-centroid × scale); its distance from the clipped target
centroid is bounded by |target centroid| × |scale − 1| (so it is the target
centroid itself, modulo clamping, whenever the scale is 1). -/
theorem C5_round_trip_centroid (pts : List CalibrationPoint) :
    apply_calibration (some (calculate_calibration_transform pts))
        (npMean (gaze_ratios_h pts)) (npMean (gaze_ratios_v pts)) =
      (clip01 (npMean (target_positions_h pts) *
         (calculate_calibration_transform pts).h_scale),
       clip01 (npMean (target_positions_v pts) *
         (calculate_calibration_transform pts).v_scale)) ∧
    |clip01 (npMean (target_positions_h pts) *
         (calculate_calibration_transform pts).h_scale) -
        clip01 (npMean (target_positions_h pts))| ≤
      |npMean (target_positions_h pts)| *
        |(calculate_calibration_transform pts).h_scale - 1| ∧
    |clip01 (npMean (target_positions_v pts) *
         (calculate_calibration_transform pts).v_scale) -
        clip01 (npMean (target_positions_v pts))| ≤
      |npMean (target_positions_v pts)| *
        |(calculate_calibration_transform pts).v_scale - 1| ∧
    ((calculate_calibration_transform pts).h_scale = 1 →
      (apply_calibration (some (calculate_calibration_transform pts))
          (npMean (gaze_ratios_h pts)) (npMean (gaze_ratios_v pts))).1 =
        clip01 (npMean (target_positions_h pts))) ∧
    ((calculate_calibration_transform pts).v_scale = 1 →
      (apply_calibration (some (calculate_calibration_transform pts))
          (npMean (gaze_ratios_h pts)) (npMean (gaze_ratios_v pts))).2 =
        clip01 (npMean (target_positions_v pts))) := by
  have eh : npMean (gaze_ratios_h pts) -
      (calculate_calibration_transform pts).h_offset =
      npMean (target_positions_h pts) := by
    simp only [calculate_calibration_transform]
    ring
  have ev : npMean (gaze_ratios_v pts) -
      (calculate_calibration_transform pts).v_offset =
      npMean (target_positions_v pts) := by
    simp only [calculate_calibration_transform]
    ring
  have happ : apply_calibration (some (calculate_calibration_transform pts))
      (npMean (gaze_ratios_h pts)) (npMean (gaze_ratios_v pts)) =
      (clip01 (npMean (target_positions_h pts) *
         (calculate_calibration_transform pts).h_scale),
       clip01 (npMean (target_positions_v pts) *
         (calculate_calibration_transform pts).v_scale)) := by
    simp only [apply_calibration, eh, ev]
  have hbh : |clip01 (npMean (target_positions_h pts) *
        (calculate_calibration_transform pts).h_scale) -
      clip01 (npMean (target_positions_h pts))| ≤
      |npMean (target_positions_h pts)| *
        |(calculate_calibration_transform pts).h_scale - 1| := by
    calc |clip01 (npMean (target_positions_h pts) *
            (calculate_calibration_transform pts).h_scale) -
          clip01 (npMean (target_positions_h pts))| ≤
        |npMean (target_positions_h pts) *
            (calculate_calibration_transform pts).h_scale -
          npMean (target_positions_h pts)| := clip01_lipschitz _ _
      _ = |npMean (target_positions_h pts) *
            ((calculate_calibration_transform pts).h_scale - 1)| := by ring_nf
      _ = |npMean (target_positions_h pts)| *
            |(calculate_calibration_transform pts).h_scale - 1| := abs_mul _ _
  have hbv : |clip01 (npMean (target_positions_v pts) *
        (calculate_calibration_transform pts).v_scale) -
      clip01 (npMean (target_positions_v pts))| ≤
      |npMean (target_positions_v pts)| *
        |(calculate_calibration_transform pts).v_scale - 1| := by
    calc |clip01 (npMean (target_positions_v pts) *
            (calculate_calibration_transform pts).v_scale) -
          clip01 (npMean (target_positions_v pts))| ≤
        |npMean (target_positions_v pts) *
            (calculate_calibration_transform pts).v_scale -
          npMean (target_positions_v pts)| := clip01_lipschitz _ _
      _ = |npMean (target_positions_v pts) *
            ((calculate_calibration_transform pts).v_scale - 1)| := by ring_nf
      _ = |npMean (target_positions_v pts)| *
            |(calculate_calibration_transform pts).v_scale - 1| := abs_mul _ _
  refine ⟨happ, hbh, hbv, ?_, ?_⟩
  · intro h1
    rw [happ, h1, mul_one]
  · intro h1
    rw [happ, h1, mul_one]

/-- Witness for C5: on the single centered point pts_c5 both scales are 1,
and the calibrated centroid equals the clipped target centroid exactly. -/
theorem C5_round_trip_centroid_witness :
    apply_calibration (some (calculate_calibration_transform pts_c5))
        (npMean (gaze_ratios_h pts_c5)) (npMean (gaze_ratios_v pts_c5)) =
      (clip01 (npMean (target_positions_h pts_c5) *
         (calculate_calibration_transform pts_c5).h_scale),
       clip01 (npMean (target_positions_v pts_c5) *
         (calculate_calibration_transform pts_c5).v_scale)) ∧
    (apply_calibration (some (calculate_calibration_transform pts_c5))
        (npMean (gaze_ratios_h pts_c5)) (npMean (gaze_ratios_v pts_c5))).1 =
      clip01 (npMean (target_positions_h pts_c5)) := by
  have h := C5_round_trip_centroid pts_c5
  refine ⟨h.1, h.2.2.2.1 ?_⟩
  have hg : npStd (gaze_ratios_h pts_c5) = 0 := by
    norm_num [pts_c5, gaze_ratios_h, get_average_gaze, npStd, npMean]
  simp only [calculate_calibration_transform, hg]
  norm_num
